import Mathlib

/-!
Verification of the coffee-shop backend (`src/backend/src/api.py`).

We shallowly embed the Flask handlers of `api.py`: JSON values are an
inductive type with Python truthiness, the drink table is a list of
records, persistence failures are an `Option String` argument carrying
the store exception's detail text (`none` = the store call succeeds),
and Python exceptions that escape a handler are an `exn` constructor of
`PyResult`.  The `Drink` model and the `AuthError` class live in files
not present in the source tree (`models.py`, `auth.py`); the pieces of
them the handlers touch are modelled from the specification and marked
as such in their doc comments.
-/

/-- JSON values as delivered by `request.get_json()`.  `null` stands both
for a JSON `null` body and for an absent body (Flask returns `None`). -/
inductive Json where
  | null : Json
  | str : String → Json
  | num : Int → Json
  | bool : Bool → Json
  | arr : List Json → Json
  | obj : List (String × Json) → Json
deriving Repr

/-- Python truthiness (`if not body:` etc.): `None`, `""`, `0`, `False`,
`[]` and `{}` are falsy. -/
def Json.falsy : Json → Bool
  | .null => true
  | .str s => s.isEmpty
  | .num n => n == 0
  | .bool b => !b
  | .arr xs => xs.isEmpty
  | .obj fs => fs.isEmpty

/-- `body.get('k', None)`: dictionary lookup with default `None`.  In
Python `.get` exists only on dicts — on any other truthy body it raises
an uncaught `AttributeError` — so the handlers below match on `obj`
before calling this and answer `.exn "AttributeError"` otherwise; the
catch-all arm here is never reached from them. -/
def Json.get (j : Json) (k : String) : Json :=
  match j with
  | .obj fs => (fs.lookup k).getD .null
  | _ => .null

/-- The keys of a JSON object (empty for non-objects). -/
def Json.keys : Json → List String
  | .obj fs => fs.map Prod.fst
  | _ => []

/-- Modelled from the spec: the `Drink` model of the missing
`models.py`.  The spec gives it `id`, `title` and `recipe` ("structured
data serialized as text").  The handlers store `json.dumps(recipe)` and
`long()` returns "recipe parsed from stored text form"; we model the
dumps/loads round trip as the identity, so `recipe` holds the JSON
value. -/
structure Drink where
  id : Nat
  title : Json
  recipe : Json
deriving Repr

/-- Modelled from the spec: `short()` = `{id, title}` (spec section 6). -/
def Drink.short (d : Drink) : Json :=
  .obj [("id", .num d.id), ("title", d.title)]

/-- Modelled from the spec: `long()` = `{id, title, recipe}` with the
recipe parsed from its stored text form (spec section 6). -/
def Drink.long (d : Drink) : Json :=
  .obj [("id", .num d.id), ("title", d.title), ("recipe", d.recipe)]

/-- An HTTP response: status code and JSON body, as produced by
`jsonify(...)` (status 200 unless a status is attached). -/
structure Response where
  status : Nat
  body : Json
deriving Repr

/-- Result of running a handler: either a value, or an uncaught Python
exception (named), which Flask would surface as a 500. -/
inductive PyResult (α : Type) where
  | ok : α → PyResult α
  | exn : String → PyResult α
deriving Repr

/-- Map over the value of a `PyResult`, preserving exceptions. -/
def PyResult.map {α β : Type} (f : α → β) : PyResult α → PyResult β
  | .ok a => .ok (f a)
  | .exn e => .exn e

/-- The `description` attribute of a werkzeug `HTTPException`: either
the class's default description (a plain string, as after a bare
`abort(422)`), or the dict passed via `abort(status, {'message': ...})`
/ `abort(status, description={'message': ...})`. -/
inductive Description where
  | defaultStr : String → Description
  | dict : List (String × String) → Description
deriving Repr

/-- `get_error_message(error, default_message)` (api.py lines 213-230):
`try: return error.description['message'] except TypeError: return
default_message`.  Subscripting a string with a string raises
`TypeError` (caught); subscripting a dict lacking the key raises
`KeyError` (not caught). -/
def get_error_message (desc : Description) (default_message : String) :
    PyResult String :=
  match desc with
  | .defaultStr _ => .ok default_message
  | .dict fields =>
    match fields.lookup "message" with
    | some m => .ok m
    | none => .exn "KeyError"

/-- The `@app.errorhandler(422)` handler `unprocessable` (api.py lines
180-186). -/
def unprocessable (desc : Description) : PyResult Response :=
  match get_error_message desc "unprocessable" with
  | .ok m => .ok ⟨422, .obj [("success", .bool false), ("error", .num 422),
      ("message", .str m)]⟩
  | .exn e => .exn e

/-- The `@app.errorhandler(404)` handler `not_found` (api.py lines
204-210). -/
def not_found (desc : Description) : PyResult Response :=
  match get_error_message desc "resource not found" with
  | .ok m => .ok ⟨404, .obj [("success", .bool false), ("error", .num 404),
      ("message", .str m)]⟩
  | .exn e => .exn e

/-- Modelled from the spec: the `AuthError` class of the missing
`auth.py`.  Per the spec all failures carry "an HTTP-style status code
(401 for all verification failures, 400 for malformed input) and a
machine-readable error code plus human-readable description"; `api.py`
reads the attributes `status_code` and `error`. -/
structure AuthError where
  error : Json
  status_code : Nat
deriving Repr

/-- The `@app.errorhandler(AuthError)` handler `auth_error` (api.py
lines 237-243): the body carries `e.status_code` and `e.error`, but the
HTTP status of the tuple is the literal `401`. -/
def auth_error (e : AuthError) : Response :=
  ⟨401, .obj [("success", .bool false), ("error", .num e.status_code),
    ("message", e.error)]⟩

/-- `GET /drinks` (api.py lines 31-38): public, returns
`{'success': True, 'drinks': [drink.short() for drink in drinks_query]}`
with `jsonify`'s default status 200. -/
def get_drinks (db : List Drink) : Response :=
  ⟨200, .obj [("success", .bool true),
    ("drinks", .arr (db.map Drink.short))]⟩

/-- `GET /drinks-detail` (api.py lines 50-58): long-form listing. -/
def get_drink_detail (db : List Drink) : Response :=
  ⟨200, .obj [("success", .bool true),
    ("drinks", .arr (db.map Drink.long))]⟩

/-- `POST /drinks` (api.py lines 71-100).  `body` is the parsed JSON
body; `nextId` is the id the store would assign on insert; `storeExc`
is `some detail` when `Drink(...)/insert()` raises an exception whose
detail text is `detail`, `none` when the insert succeeds.  A truthy
non-dict body makes `body.get('title', None)` (line 79, outside the
`try`) raise an uncaught `AttributeError`.  Returns the response and
the resulting drink table. -/
def create_drink (body : Json) (db : List Drink) (nextId : Nat)
    (storeExc : Option String) : PyResult (Response × List Drink) :=
  if body.falsy then
    (unprocessable (.dict [("message", "invalid body JSON")])).map (·, db)
  else match body with
  | .obj fs =>
    let new_drink := (Json.obj fs).get "title"
    let new_recipe := (Json.obj fs).get "recipe"
    if new_drink.falsy then
      (unprocessable (.dict [("message", "drink cannot be blank")])).map (·, db)
    else if new_recipe.falsy then
      (unprocessable (.dict [("message", "recipe cannot be blank")])).map (·, db)
    else
      match storeExc with
      | some _ =>
        (not_found (.dict [("message", "failed to add a drink")])).map (·, db)
      | none =>
        let drink : Drink := ⟨nextId, new_drink, new_recipe⟩
        .ok (⟨200, .obj [("success", .bool true),
          ("drinks", .arr [drink.long])]⟩, db ++ [drink])
  | _ => .exn "AttributeError"

/-- `Drink.query.filter(Drink.id == drink_id).one_or_none()`: `None` on
no match, the row on exactly one match, and an uncaught
`MultipleResultsFound` on several (the call sits outside the `try`). -/
def one_or_none (db : List Drink) (drink_id : Nat) :
    PyResult (Option Drink) :=
  match db.filter (fun d => d.id == drink_id) with
  | [] => .ok none
  | [d] => .ok (some d)
  | _ => .exn "MultipleResultsFound"

/-- `PATCH /drinks/<int:drink_id>` (api.py lines 115-143).  A truthy
`title`/`recipe` field overwrites the stored one; `update()` persists
the mutated row.  `storeExc` as in `create_drink`; a store exception is
answered by a bare `abort(422)` (default description).  A truthy
non-dict body reaches `body.get('title', None)` (line 128, outside the
`try`) only after the row lookup, so it raises an uncaught
`AttributeError` when the row exists and still gets the 404 when it
does not. -/
def update_drink (body : Json) (drink_id : Nat) (db : List Drink)
    (storeExc : Option String) : PyResult (Response × List Drink) :=
  if body.falsy then
    (unprocessable (.dict [("message", "invalid body JSON")])).map (·, db)
  else
    match one_or_none db drink_id with
    | .exn e => .exn e
    | .ok none =>
      (not_found (.dict [("message", "drinks not found")])).map (·, db)
    | .ok (some drink) =>
      match body with
      | .obj fs =>
        let title := (Json.obj fs).get "title"
        let recipe := (Json.obj fs).get "recipe"
        match storeExc with
        | some _ =>
          (unprocessable (.defaultStr
            "The request was well-formed but was unable to be followed due to semantic errors.")).map (·, db)
        | none =>
          let drink' : Drink :=
            { drink with
              title := if title.falsy then drink.title else title,
              recipe := if recipe.falsy then drink.recipe else recipe }
          .ok (⟨200, .obj [("success", .bool true),
            ("drinks", .arr [drink'.long])]⟩,
            db.map (fun d => if d.id == drink_id then drink' else d))
      | _ => .exn "AttributeError"

/-- `DELETE /drinks/<int:drink_id>` (api.py lines 157-173).
`Drink.query.get(drink_id)` is a primary-key lookup; on success the row
is removed and the response carries `'deleted': drink_id`. -/
def delete_drinks (drink_id : Nat) (db : List Drink)
    (storeExc : Option String) : PyResult (Response × List Drink) :=
  match db.find? (fun d => d.id == drink_id) with
  | none =>
    (not_found (.dict [("message", "drinks not found")])).map (·, db)
  | some _ =>
    match storeExc with
    | some _ =>
      (unprocessable (.defaultStr
        "The request was well-formed but was unable to be followed due to semantic errors.")).map (·, db)
    | none =>
      .ok (⟨200, .obj [("success", .bool true),
        ("deleted", .num drink_id)]⟩,
        db.filter (fun d => !(d.id == drink_id)))

/-! ## Helper lemmas -/

/-- Replacing every element satisfying `p` by `d` is the identity when no
element of `l` satisfies `p`. -/
theorem map_ite_of_filter_nil {p : Drink → Bool} {l : List Drink} {d : Drink}
    (h : l.filter p = []) : l.map (fun x => if p x then d else x) = l := by
  induction l with
  | nil => rfl
  | cons a t ih =>
    rw [List.filter_cons] at h
    cases hpa : p a with
    | true => rw [hpa] at h; simp at h
    | false =>
      rw [hpa] at h
      simp only [Bool.false_eq_true, if_false] at h
      simp [hpa, ih h]

/-- Replacing every element satisfying `p` by `d` is the identity when the
elements of `l` satisfying `p` are exactly `[d]`. -/
theorem map_ite_of_filter_single {p : Drink → Bool} {l : List Drink} {d : Drink}
    (h : l.filter p = [d]) : l.map (fun x => if p x then d else x) = l := by
  induction l with
  | nil => simp at h
  | cons a t ih =>
    rw [List.filter_cons] at h
    cases hpa : p a with
    | true =>
      rw [hpa] at h
      simp only [if_true] at h
      obtain ⟨ha, ht⟩ := List.cons_eq_cons.mp h
      simp [hpa, ha, map_ite_of_filter_nil ht]
    | false =>
      rw [hpa] at h
      simp only [Bool.false_eq_true, if_false] at h
      simp [hpa, ih h]

/-- A row with the deleted id is never found again after the delete
removed every row with that id. -/
theorem find_after_delete (db : List Drink) (drink_id : Nat) :
    (db.filter (fun d => !(d.id == drink_id))).find?
      (fun d => d.id == drink_id) = none := by
  rw [List.find?_eq_none]
  intro x hx
  have hmem := (List.mem_filter.mp hx).2
  simp at hmem
  simp [hmem]

/-! ## Claims -/

/-- C1, counterexample: an `AuthError` whose own status code is 400 (a
malformed-header failure per the spec) is answered with HTTP status
401, not 400 — `auth_error` hardcodes `401` in its return tuple. -/
theorem auth_error_status_not_own_code :
    (auth_error ⟨Json.obj [("code", Json.str "invalid_header"),
      ("description", Json.str "Unable to parse authentication token.")],
      400⟩).status ≠
    (AuthError.mk (Json.obj [("code", Json.str "invalid_header"),
      ("description", Json.str "Unable to parse authentication token.")])
      400).status_code := by
  simp [auth_error]

/-- C1, amended: every `AuthError` is answered with HTTP status 401
regardless of the failure's own status code; the failure's status code
appears only in the body's `error` field. -/
theorem auth_error_always_http_401 (e : AuthError) :
    (auth_error e).status = 401 ∧
    (auth_error e).body.get "error" = Json.num e.status_code ∧
    (auth_error e).body.get "message" = e.error := by
  exact ⟨rfl, rfl, rfl⟩

/-- C2, counterexample: for an `AuthError` with status code 400, the
body's `error` field (400) differs from the HTTP status code of the
response (401), so the error envelope's `error` does not equal the HTTP
status. -/
theorem auth_error_body_code_mismatch :
    (auth_error ⟨Json.obj [("code", Json.str "invalid_claims"),
      ("description", Json.str "Permissions not included in JWT.")],
      400⟩).body.get "error" ≠
    Json.num ((auth_error ⟨Json.obj [("code", Json.str "invalid_claims"),
      ("description", Json.str "Permissions not included in JWT.")],
      400⟩).status : Int) := by
  intro h
  rw [show (auth_error ⟨Json.obj [("code", Json.str "invalid_claims"),
      ("description", Json.str "Permissions not included in JWT.")],
      400⟩).body.get "error" = Json.num 400 from rfl,
    show Json.num (((auth_error ⟨Json.obj [("code", Json.str "invalid_claims"),
      ("description", Json.str "Permissions not included in JWT.")],
      400⟩).status : Nat) : Int) = Json.num 401 from rfl] at h
  injection h with h
  omega

/-- C2, amended: the 422 and 404 handlers produce exactly
`{success: false, error: <status>, message: <string>}` with `error`
equal to the HTTP status, whenever `get_error_message` returns; the
`AuthError` handler produces `{success: false, error: e.status_code,
message: e.error}` with HTTP status 401, where `error` may differ from
the HTTP status and `message` is the error object, not necessarily a
string. -/
theorem error_body_shapes :
    (∀ d m, get_error_message d "unprocessable" = .ok m →
      unprocessable d = .ok ⟨422, Json.obj [("success", Json.bool false),
        ("error", Json.num 422), ("message", Json.str m)]⟩) ∧
    (∀ d m, get_error_message d "resource not found" = .ok m →
      not_found d = .ok ⟨404, Json.obj [("success", Json.bool false),
        ("error", Json.num 404), ("message", Json.str m)]⟩) ∧
    (∀ e : AuthError, auth_error e =
      ⟨401, Json.obj [("success", Json.bool false),
        ("error", Json.num e.status_code), ("message", e.error)]⟩) := by
  refine ⟨?_, ?_, fun e => rfl⟩ <;>
    · intro d m h
      simp [unprocessable, not_found, h]

/-- C2, witness for the amended theorem at a concrete description. -/
theorem error_body_shapes_witness :
    unprocessable (.dict [("message", "invalid body JSON")]) =
      .ok ⟨422, Json.obj [("success", Json.bool false),
        ("error", Json.num 422), ("message", Json.str "invalid body JSON")]⟩ ∧
    not_found (.defaultStr "Not Found") =
      .ok ⟨404, Json.obj [("success", Json.bool false),
        ("error", Json.num 404), ("message", Json.str "resource not found")]⟩ := by
  exact ⟨error_body_shapes.1 _ _ rfl, error_body_shapes.2.1 _ _ rfl⟩

/-- C10: `get_error_message` returns the dict's `'message'` entry when
present, returns the default message when the description is a plain
string (the `TypeError` branch), and raises an uncaught `KeyError` when
the description is a dict without a `'message'` key. -/
theorem get_error_message_spec :
    (∀ (fields : List (String × String)) (dm m : String),
      fields.lookup "message" = some m →
      get_error_message (.dict fields) dm = .ok m) ∧
    (∀ s dm : String, get_error_message (.defaultStr s) dm = .ok dm) ∧
    (∀ (fields : List (String × String)) (dm : String),
      fields.lookup "message" = none →
      get_error_message (.dict fields) dm = .exn "KeyError") := by
  refine ⟨?_, fun s dm => rfl, ?_⟩
  · intro fields dm m h
    simp [get_error_message, h]
  · intro fields dm h
    simp [get_error_message, h]

/-- C10, witness: a dict with the key, a plain string, and a dict
without the key. -/
theorem get_error_message_spec_witness :
    get_error_message (.dict [("message", "drinks not found")]) "resource not found" =
      .ok "drinks not found" ∧
    get_error_message (.defaultStr "Unprocessable Entity") "unprocessable" =
      .ok "unprocessable" ∧
    get_error_message (.dict [("code", "oops")]) "resource not found" =
      .exn "KeyError" := by
  exact ⟨get_error_message_spec.1 _ _ _ rfl, get_error_message_spec.2.1 _ _,
    get_error_message_spec.2.2 _ _ rfl⟩

/-- C4: `GET /drinks` always answers 200, the returned `drinks` list is
the short form of every stored drink, and every entry's keys are
exactly `id` and `title` — `recipe` never appears. -/
theorem get_drinks_short_only (db : List Drink) :
    (get_drinks db).status = 200 ∧
    (get_drinks db).body.get "drinks" = Json.arr (db.map Drink.short) ∧
    ((db.map Drink.short).all
      (fun j => j.keys == ["id", "title"] && !(j.keys.contains "recipe"))) = true := by
  refine ⟨rfl, rfl, ?_⟩
  rw [List.all_eq_true]
  intro j hj
  obtain ⟨d, _, rfl⟩ := List.mem_map.mp hj
  simp [Drink.short, Json.keys]

/-- C5: posting `{"title": "Latte", "recipe": {"color":"white","parts":1}}`
with a successful store insert yields status 200 and a `drinks` array
holding exactly one long-form record whose title is the submitted
`"Latte"`; the new row is appended to the table. -/
theorem create_drink_latte (db : List Drink) (nextId : Nat) :
    create_drink (Json.obj [("title", Json.str "Latte"),
        ("recipe", Json.obj [("color", Json.str "white"), ("parts", Json.num 1)])])
      db nextId none =
      .ok (⟨200, Json.obj [("success", Json.bool true),
        ("drinks", Json.arr [Json.obj [("id", Json.num nextId),
          ("title", Json.str "Latte"),
          ("recipe", Json.obj [("color", Json.str "white"), ("parts", Json.num 1)])]])]⟩,
        db ++ [⟨nextId, Json.str "Latte",
          Json.obj [("color", Json.str "white"), ("parts", Json.num 1)]⟩]) := by
  rfl

/-- C6: posting a body whose `title` is the empty string is rejected
with 422, whatever the recipe, the table, or the state of the store,
and the message contains the word "drink". -/
theorem create_drink_blank_title (recipe : Json) (db : List Drink)
    (nextId : Nat) (storeExc : Option String) :
    ∃ msg pre post,
      create_drink (Json.obj [("title", Json.str ""), ("recipe", recipe)])
        db nextId storeExc =
        .ok (⟨422, Json.obj [("success", Json.bool false), ("error", Json.num 422),
          ("message", Json.str msg)]⟩, db) ∧
      msg = pre ++ "drink" ++ post := by
  exact ⟨"drink cannot be blank", "", " cannot be blank", rfl, rfl⟩

/-- C9: a falsy JSON body — `None` for an absent or `null` body, or the
empty object `{}` — makes both POST `/drinks` and PATCH `/drinks/{id}`
answer 422 with message `invalid body JSON`, leaving the table untouched
and independent of the store (the same result for every `storeExc`). -/
theorem reject_falsy_body (body : Json) (db : List Drink)
    (nextId drink_id : Nat) (storeExc : Option String)
    (h : body.falsy = true) :
    create_drink body db nextId storeExc =
      .ok (⟨422, Json.obj [("success", Json.bool false), ("error", Json.num 422),
        ("message", Json.str "invalid body JSON")]⟩, db) ∧
    update_drink body drink_id db storeExc =
      .ok (⟨422, Json.obj [("success", Json.bool false), ("error", Json.num 422),
        ("message", Json.str "invalid body JSON")]⟩, db) := by
  unfold create_drink update_drink
  rw [h]
  exact ⟨rfl, rfl⟩

/-- C9, witness: the empty JSON object and the missing/null body are
both rejected identically, at a concrete table. -/
theorem reject_falsy_body_witness :
    Json.falsy (Json.obj []) = true ∧
    create_drink (Json.obj []) [⟨1, Json.str "Tea", Json.str "water"⟩] 2 none =
      .ok (⟨422, Json.obj [("success", Json.bool false), ("error", Json.num 422),
        ("message", Json.str "invalid body JSON")]⟩,
        [⟨1, Json.str "Tea", Json.str "water"⟩]) ∧
    update_drink Json.null 1 [⟨1, Json.str "Tea", Json.str "water"⟩] none =
      .ok (⟨422, Json.obj [("success", Json.bool false), ("error", Json.num 422),
        ("message", Json.str "invalid body JSON")]⟩,
        [⟨1, Json.str "Tea", Json.str "water"⟩]) := by
  exact ⟨rfl,
    (reject_falsy_body (Json.obj []) [⟨1, Json.str "Tea", Json.str "water"⟩]
      2 1 none rfl).1,
    (reject_falsy_body Json.null [⟨1, Json.str "Tea", Json.str "water"⟩]
      2 1 none rfl).2⟩

/-- C7: a store exception is mapped to 404 with the fixed message
`failed to add a drink` on create, and to 422 with the fixed message
`unprocessable` on update and on delete; each response is a constant
that does not depend on the exception's detail text, so the detail is
never leaked.  The create and update cases take a dict body `Json.obj
fs`: only dict bodies get past `body.get` and reach the store
operation (a truthy non-dict raises `AttributeError` first). -/
theorem store_exception_mapping :
    (∀ (fs : List (String × Json)) (db : List Drink) (nextId : Nat)
      (detail : String),
      (Json.obj fs).falsy = false →
      ((Json.obj fs).get "title").falsy = false →
      ((Json.obj fs).get "recipe").falsy = false →
      create_drink (Json.obj fs) db nextId (some detail) =
        .ok (⟨404, Json.obj [("success", Json.bool false), ("error", Json.num 404),
          ("message", Json.str "failed to add a drink")]⟩, db)) ∧
    (∀ (fs : List (String × Json)) (drink_id : Nat) (db : List Drink)
      (d : Drink) (detail : String),
      (Json.obj fs).falsy = false →
      db.filter (fun x => x.id == drink_id) = [d] →
      update_drink (Json.obj fs) drink_id db (some detail) =
        .ok (⟨422, Json.obj [("success", Json.bool false), ("error", Json.num 422),
          ("message", Json.str "unprocessable")]⟩, db)) ∧
    (∀ (drink_id : Nat) (db : List Drink) (d : Drink) (detail : String),
      db.find? (fun x => x.id == drink_id) = some d →
      delete_drinks drink_id db (some detail) =
        .ok (⟨422, Json.obj [("success", Json.bool false), ("error", Json.num 422),
          ("message", Json.str "unprocessable")]⟩, db)) := by
  refine ⟨?_, ?_, ?_⟩
  · intro fs db nextId detail h1 h2 h3
    unfold create_drink
    rw [h1]
    simp only [h2, h3]
    rfl
  · intro fs drink_id db d detail hbody hfind
    unfold update_drink one_or_none
    rw [hbody, hfind]
    rfl
  · intro drink_id db d detail hfind
    unfold delete_drinks
    rw [hfind]
    rfl

/-- C7, witness: concrete store failures on create, update and delete. -/
theorem store_exception_mapping_witness :
    create_drink (Json.obj [("title", Json.str "Cola"),
        ("recipe", Json.obj [("parts", Json.num 1)])]) [] 7
      (some "IntegrityError: UNIQUE constraint failed") =
      .ok (⟨404, Json.obj [("success", Json.bool false), ("error", Json.num 404),
        ("message", Json.str "failed to add a drink")]⟩, []) ∧
    update_drink (Json.obj [("title", Json.str "Cola")]) 1
      [⟨1, Json.str "Tea", Json.str "water"⟩]
      (some "OperationalError: database is locked") =
      .ok (⟨422, Json.obj [("success", Json.bool false), ("error", Json.num 422),
        ("message", Json.str "unprocessable")]⟩,
        [⟨1, Json.str "Tea", Json.str "water"⟩]) ∧
    delete_drinks 1 [⟨1, Json.str "Tea", Json.str "water"⟩]
      (some "OperationalError: database is locked") =
      .ok (⟨422, Json.obj [("success", Json.bool false), ("error", Json.num 422),
        ("message", Json.str "unprocessable")]⟩,
        [⟨1, Json.str "Tea", Json.str "water"⟩]) := by
  exact ⟨store_exception_mapping.1 [("title", Json.str "Cola"),
      ("recipe", Json.obj [("parts", Json.num 1)])] [] 7 _ rfl rfl rfl,
    store_exception_mapping.2.1 [("title", Json.str "Cola")] 1 _
      ⟨1, Json.str "Tea", Json.str "water"⟩ _ rfl rfl,
    store_exception_mapping.2.2 1 _ ⟨1, Json.str "Tea", Json.str "water"⟩ _ rfl⟩

/-- C3: deleting an existing drink (store succeeding) answers 200 with
`{success: true, deleted: drink_id}` where `drink_id` is the deleted
record's id, the row is removed, and repeating the identical request
against the resulting table answers 404. -/
theorem delete_then_repeat (db : List Drink) (drink_id : Nat) (d : Drink)
    (hfind : db.find? (fun x => x.id == drink_id) = some d) :
    d.id = drink_id ∧
    delete_drinks drink_id db none =
      .ok (⟨200, Json.obj [("success", Json.bool true),
        ("deleted", Json.num drink_id)]⟩,
        db.filter (fun x => !(x.id == drink_id))) ∧
    delete_drinks drink_id (db.filter (fun x => !(x.id == drink_id))) none =
      .ok (⟨404, Json.obj [("success", Json.bool false), ("error", Json.num 404),
        ("message", Json.str "drinks not found")]⟩,
        db.filter (fun x => !(x.id == drink_id))) := by
  refine ⟨?_, ?_, ?_⟩
  · have hp := List.find?_some hfind
    simpa using hp
  · unfold delete_drinks
    rw [hfind]
  · unfold delete_drinks
    rw [find_after_delete]
    rfl

/-- C3, witness: delete drink 2 from a two-row table, then repeat. -/
theorem delete_then_repeat_witness :
    delete_drinks 2 [⟨1, Json.str "Cola", Json.str "soda"⟩,
        ⟨2, Json.str "Tea", Json.str "water"⟩] none =
      .ok (⟨200, Json.obj [("success", Json.bool true), ("deleted", Json.num 2)]⟩,
        [⟨1, Json.str "Cola", Json.str "soda"⟩]) ∧
    delete_drinks 2 [⟨1, Json.str "Cola", Json.str "soda"⟩] none =
      .ok (⟨404, Json.obj [("success", Json.bool false), ("error", Json.num 404),
        ("message", Json.str "drinks not found")]⟩,
        [⟨1, Json.str "Cola", Json.str "soda"⟩]) := by
  exact ⟨(delete_then_repeat [⟨1, Json.str "Cola", Json.str "soda"⟩,
      ⟨2, Json.str "Tea", Json.str "water"⟩] 2
      ⟨2, Json.str "Tea", Json.str "water"⟩ rfl).2.1,
    (delete_then_repeat [⟨1, Json.str "Cola", Json.str "soda"⟩,
      ⟨2, Json.str "Tea", Json.str "water"⟩] 2
      ⟨2, Json.str "Tea", Json.str "water"⟩ rfl).2.2⟩

/-- Evaluation of `update_drink` on a truthy body when exactly one row
matches and the store succeeds: each submitted field overwrites the
stored one only when truthy, and the mutated row is written back. -/
theorem update_drink_found (fs : List (String × Json)) (drink_id : Nat)
    (db : List Drink) (d : Drink) (hbody : (Json.obj fs).falsy = false)
    (hfind : db.filter (fun x => x.id == drink_id) = [d]) :
    update_drink (Json.obj fs) drink_id db none =
      .ok (⟨200, Json.obj [("success", Json.bool true),
        ("drinks", Json.arr [(Drink.mk d.id
          (if ((Json.obj fs).get "title").falsy then d.title
            else (Json.obj fs).get "title")
          (if ((Json.obj fs).get "recipe").falsy then d.recipe
            else (Json.obj fs).get "recipe")).long])]⟩,
        db.map (fun x => if x.id == drink_id then
          Drink.mk d.id
            (if ((Json.obj fs).get "title").falsy then d.title
              else (Json.obj fs).get "title")
            (if ((Json.obj fs).get "recipe").falsy then d.recipe
              else (Json.obj fs).get "recipe")
          else x)) := by
  unfold update_drink one_or_none
  rw [hbody, hfind]
  rfl

/-- C8: a PATCH whose body is a non-empty object with neither a truthy
`title` nor a truthy `recipe`, on the one stored drink with that id,
answers 200 and leaves the table — in particular the drink's title and
recipe — unchanged. -/
theorem patch_noop_preserves_drink (body : Json) (fs : List (String × Json))
    (drink_id : Nat) (db : List Drink) (d : Drink)
    (hbody : body = Json.obj fs) (hne : fs ≠ [])
    (htitle : (body.get "title").falsy = true)
    (hrecipe : (body.get "recipe").falsy = true)
    (hfind : db.filter (fun x => x.id == drink_id) = [d]) :
    update_drink body drink_id db none =
      .ok (⟨200, Json.obj [("success", Json.bool true),
        ("drinks", Json.arr [d.long])]⟩, db) := by
  subst hbody
  have hmap : db.map (fun x => if x.id == drink_id then d else x) = db :=
    map_ite_of_filter_single hfind
  have hfalsy : (Json.obj fs).falsy = false := by
    simpa [Json.falsy] using hne
  rw [update_drink_found fs drink_id db d hfalsy hfind, htitle, hrecipe]
  exact congrArg (fun l => PyResult.ok
    ((⟨200, Json.obj [("success", Json.bool true),
      ("drinks", Json.arr [d.long])]⟩ : Response), l)) hmap

/-- C8, witness: a body `{"note": "x"}` on a one-row table. -/
theorem patch_noop_preserves_drink_witness :
    update_drink (Json.obj [("note", Json.str "x")]) 1
      [⟨1, Json.str "Tea", Json.str "water"⟩] none =
      .ok (⟨200, Json.obj [("success", Json.bool true),
        ("drinks", Json.arr [Json.obj [("id", Json.num 1),
          ("title", Json.str "Tea"), ("recipe", Json.str "water")]])]⟩,
        [⟨1, Json.str "Tea", Json.str "water"⟩]) := by
  exact patch_noop_preserves_drink (Json.obj [("note", Json.str "x")])
    [("note", Json.str "x")] 1 [⟨1, Json.str "Tea", Json.str "water"⟩]
    ⟨1, Json.str "Tea", Json.str "water"⟩ rfl (by simp) rfl rfl rfl
